import Mathlib

/-!
Shallow embedding of the on-disk structures of the rcore-fs log-structured
file system (`src/rcore-fs-lfs/src/structs.rs`), together with theorems
checking the natural-language specification against them.

Machine integers (`u32`, `usize`, `u16`) are embedded as `Nat`; the signed
`i32` fields of `SummaryEntry` as `Int`.  Byte buffers (`[u8; N]`) and Rust
strings are embedded as `List Nat` of their bytes.  Fallible operations
(Rust code that can panic) return `Option`, `none` standing for a panic.
-/

namespace LFS

/-! Constants, transcribed from `structs.rs` lines 242-295. -/

/-- Sentinel device id meaning "not a device" (`NODEVICE`). -/
def NODEVICE : Nat := 100

/-- Magic number for lfs (`MAGIC`). -/
def MAGIC : Nat := 0x2f8dbe2c

/-- Log2 of the block size (`BLKSIZE_LOG2`). -/
def BLKSIZE_LOG2 : Nat := 12

/-- Size of a block in bytes: `1usize << BLKSIZE_LOG2` (`BLKSIZE`). -/
def BLKSIZE : Nat := 1 <<< BLKSIZE_LOG2

/-- Number of direct block pointers in an inode (`NDIRECT`). -/
def NDIRECT : Nat := 12

/-- Max length of the superblock info string (`MAX_INFO_LEN`). -/
def MAX_INFO_LEN : Nat := 31

/-- Max length of a filename (`MAX_FNAME_LEN`). -/
def MAX_FNAME_LEN : Nat := 255

/-- Max file size: the size field is a `u32` (`MAX_FILE_SIZE = 0xffffffff`). -/
def MAX_FILE_SIZE : Nat := 0xffffffff

/-- Block the superblock lives in (`BLKN_SUPER`). -/
def BLKN_SUPER : Nat := 0

/-- Block the checkpoint region lives in (`BLKN_CR`). -/
def BLKN_CR : Nat := 1

/-- First block of the segment area (`BLKN_SEGMENT = 0x100`). -/
def BLKN_SEGMENT : Nat := 0x100

/-- Size of one block-pointer entry in bytes (`ENTRY_SIZE`). -/
def ENTRY_SIZE : Nat := 4

/-- Number of entries in a block: `BLKSIZE / ENTRY_SIZE` (`BLK_NENTRY`). -/
def BLK_NENTRY : Nat := BLKSIZE / ENTRY_SIZE

/-- Size of a dirent as used in the size field:
`MAX_FNAME_LEN + 1 + ENTRY_SIZE` (`DIRENT_SIZE`). -/
def DIRENT_SIZE : Nat := MAX_FNAME_LEN + 1 + ENTRY_SIZE

/-- Max number of blocks reachable with direct pointers only
(`MAX_NBLOCK_DIRECT = NDIRECT`). -/
def MAX_NBLOCK_DIRECT : Nat := NDIRECT

/-- Max number of blocks reachable with the indirect pointer
(`MAX_NBLOCK_INDIRECT = NDIRECT + BLK_NENTRY`). -/
def MAX_NBLOCK_INDIRECT : Nat := NDIRECT + BLK_NENTRY

/-- Max number of blocks reachable with the double indirect pointer
(`MAX_NBLOCK_DOUBLE_INDIRECT = NDIRECT + BLK_NENTRY + BLK_NENTRY * BLK_NENTRY`). -/
def MAX_NBLOCK_DOUBLE_INDIRECT : Nat := NDIRECT + BLK_NENTRY + BLK_NENTRY * BLK_NENTRY

/-- Number of blocks in one segment (`SEGMENT_BLKS`). -/
def SEGMENT_BLKS : Nat := 1024

/-- Size of one segment in bytes (`SEGMENT_SIZE = SEGMENT_BLKS * BLKSIZE`). -/
def SEGMENT_SIZE : Nat := SEGMENT_BLKS * BLKSIZE

/-- Bytes of the per-segment inode map (`IMAP_PER_SEGMENT_SIZE = BLKSIZE * 2`). -/
def IMAP_PER_SEGMENT_SIZE : Nat := BLKSIZE * 2

/-- Bytes of the per-segment summary (`SS_PER_SEGMENT_SIZE = BLKSIZE * 2`). -/
def SS_PER_SEGMENT_SIZE : Nat := BLKSIZE * 2

/-- Bytes of the segment metadata block (`SEGMENT_META_SIZE = BLKSIZE`). -/
def SEGMENT_META_SIZE : Nat := BLKSIZE

/-- First in-segment block index of the data region (`BLK_DATA_BEGIN`). -/
def BLK_DATA_BEGIN : Nat :=
  (IMAP_PER_SEGMENT_SIZE + SS_PER_SEGMENT_SIZE + SEGMENT_META_SIZE) / BLKSIZE

/-- Summary sentinel: this physical block is an indirect / double-indirect
pointer block (`ENTRY_SPECIALBLOCK = -1`). -/
def ENTRY_SPECIALBLOCK : Int := -1

/-- Summary sentinel: this block has been superseded, it is garbage
(`ENTRY_GARBAGE = -2`). -/
def ENTRY_GARBAGE : Int := -2

/-! Data model: record shapes from `structs.rs`. -/

/-- File types (`FileType`, `#[repr(u16)]`). -/
inductive FileType where
  | Invalid
  | File
  | Dir
  | SymLink
  | CharDevice
  | BlockDevice
deriving DecidableEq

/-- On-disk superblock (`SuperBlock`): `magic`, `blocks`, `unused_blocks`,
`info` (a `Str32`, kept as its raw bytes), `current_seg_id`,
`next_ino_number`, `n_segment`. -/
structure SuperBlock where
  magic : Nat
  blocks : Nat
  unused_blocks : Nat
  info : List Nat
  current_seg_id : Nat
  next_ino_number : Nat
  n_segment : Nat
deriving DecidableEq

/-- Validity check of the superblock (`SuperBlock::check`):
`self.magic == MAGIC`. -/
def SuperBlock.check (sb : SuperBlock) : Bool :=
  sb.magic == MAGIC

/-- On-disk inode (`DiskINode`): byte size, type, hard-link count, block
count, `NDIRECT` direct pointers, indirect pointer, double-indirect
pointer, device inode id. -/
structure DiskINode where
  size : Nat
  type_ : FileType
  nlinks : Nat
  blocks : Nat
  direct : List Nat
  indirect : Nat
  db_indirect : Nat
  device_inode_id : Nat
deriving DecidableEq

/-- Constructor `DiskINode::new_file`. -/
def DiskINode.new_file : DiskINode :=
  { size := 0
    type_ := FileType.File
    nlinks := 0
    blocks := 0
    direct := List.replicate NDIRECT 0
    indirect := 0
    db_indirect := 0
    device_inode_id := NODEVICE }

/-- Constructor `DiskINode::new_symlink`. -/
def DiskINode.new_symlink : DiskINode :=
  { size := 0
    type_ := FileType.SymLink
    nlinks := 0
    blocks := 0
    direct := List.replicate NDIRECT 0
    indirect := 0
    db_indirect := 0
    device_inode_id := NODEVICE }

/-- Constructor `DiskINode::new_dir`. -/
def DiskINode.new_dir : DiskINode :=
  { size := 0
    type_ := FileType.Dir
    nlinks := 0
    blocks := 0
    direct := List.replicate NDIRECT 0
    indirect := 0
    db_indirect := 0
    device_inode_id := NODEVICE }

/-- Constructor `DiskINode::new_chardevice(device_inode_id)`. -/
def DiskINode.new_chardevice (device_inode_id : Nat) : DiskINode :=
  { size := 0
    type_ := FileType.CharDevice
    nlinks := 0
    blocks := 0
    direct := List.replicate NDIRECT 0
    indirect := 0
    db_indirect := 0
    device_inode_id := device_inode_id }

/-- Segment summary entry (`SummaryEntry`): the owning inode id and the
entry (logical block) id, both signed `i32` on disk. -/
structure SummaryEntry where
  inode_id : Int
  entry_id : Int
deriving DecidableEq

/-- On-disk directory entry (`DiskEntry`): a `u32` inode number followed by
a `Str256` name, kept as its raw bytes. -/
structure DiskEntry where
  id : Nat
  name : List Nat
deriving DecidableEq

/-- Byte size of the `u32` inode-number field of a `DiskEntry`. -/
def SIZEOF_U32 : Nat := 4

/-- Byte size of a `Str256` name field. -/
def SIZEOF_STR256 : Nat := 256

/-- Byte size of a `DiskEntry` under `#[repr(C)]`: the `u32` id followed by
the 256-byte name; the array has alignment 1 so there is no padding between
the fields, and 260 is a multiple of the struct alignment 4 so there is no
tail padding. -/
def SIZEOF_DISK_ENTRY : Nat := SIZEOF_U32 + SIZEOF_STR256

/-! Fixed-length string fields `Str256` / `Str32`.

Rust strings are embedded as the list of their UTF-8 bytes.  The Rust
`From<&str>` impl zero-fills a fresh buffer and copies the string bytes into
its front; the slice expression `ret[0..s.len()]` panics when the string is
longer than the buffer, embedded as `none`.  `as_ref` looks for the first
zero byte, panicking (`unwrap` of `None`) when there is none, and returns
the prefix before it, decoded by `str::from_utf8`; at the byte level that
decoding is the identity, so `as_ref` is embedded as the byte prefix. -/

/-- Index of the first zero byte of a buffer, following
`iter().enumerate().find(..)` in `Str256::as_ref` / `Str32::as_ref`. -/
def firstZeroIdx : List Nat → Option Nat
  | [] => none
  | b :: rest => if b = 0 then some 0 else (firstZeroIdx rest).map (· + 1)

/-- Embedding of `Str256::from(s)`: zero-pad `s` to 256 bytes, `none` when
`s` does not fit (the Rust code panics on the slice `ret[0..s.len()]`). -/
def str256_from (s : List Nat) : Option (List Nat) :=
  if s.length ≤ 256 then some (s ++ List.replicate (256 - s.length) 0) else none

/-- Embedding of `Str32::from(s)`. -/
def str32_from (s : List Nat) : Option (List Nat) :=
  if s.length ≤ 32 then some (s ++ List.replicate (32 - s.length) 0) else none

/-- Embedding of `Str256::as_ref` (and `Str32::as_ref`, which is the same
code on a 32-byte buffer): the prefix before the first zero byte, `none`
when the buffer holds no zero byte (the Rust code unwraps `None`). -/
def str_asRef (buf : List Nat) : Option (List Nat) :=
  (firstZeroIdx buf).map (fun len => buf.take len)

/-! Helper lemmas about `firstZeroIdx`. -/

lemma firstZeroIdx_eq_none (buf : List Nat) (h : (0 : Nat) ∉ buf) :
    firstZeroIdx buf = none := by
  induction buf with
  | nil => rfl
  | cons b rest ih =>
    simp only [List.mem_cons, not_or] at h
    have hb : ¬ b = 0 := fun hb => h.1 hb.symm
    simp [firstZeroIdx, hb, ih h.2]

lemma firstZeroIdx_append_replicate (s : List Nat) (k : Nat) (hk : 0 < k)
    (hnz : (0 : Nat) ∉ s) :
    firstZeroIdx (s ++ List.replicate k 0) = some s.length := by
  induction s with
  | nil =>
    cases k with
    | zero => exact absurd hk (lt_irrefl 0)
    | succ n => simp [firstZeroIdx, List.replicate]
  | cons b rest ih =>
    simp only [List.mem_cons, not_or] at hnz
    have hb : ¬ b = 0 := fun hb => hnz.1 hb.symm
    simp [firstZeroIdx, hb, ih hnz.2]

lemma firstZeroIdx_append_replicate_isSome (s : List Nat) (k : Nat) (hk : 0 < k) :
    (firstZeroIdx (s ++ List.replicate k 0)).isSome := by
  induction s with
  | nil =>
    cases k with
    | zero => exact absurd hk (lt_irrefl 0)
    | succ n => simp [firstZeroIdx, List.replicate]
  | cons b rest ih =>
    by_cases hb : b = 0 <;> simp [firstZeroIdx, hb, ih]

/-! Theorems for the claims. -/

/-- C1: the maximum number of addressable blocks is 12 via direct pointers,
1036 via single indirection and 1,049,612 via double indirection, where the
1024 entries per pointer block equal the 4096-byte block size divided by the
4-byte entry size. -/
theorem max_nblock_bounds :
    MAX_NBLOCK_DIRECT = 12 ∧
    MAX_NBLOCK_INDIRECT = 12 + 1024 ∧
    MAX_NBLOCK_INDIRECT = 1036 ∧
    MAX_NBLOCK_DOUBLE_INDIRECT = 12 + 1024 + 1024 * 1024 ∧
    MAX_NBLOCK_DOUBLE_INDIRECT = 1049612 ∧
    BLK_NENTRY = 1024 ∧
    BLK_NENTRY = BLKSIZE / ENTRY_SIZE ∧
    BLKSIZE = 4096 ∧
    ENTRY_SIZE = 4 := by
  decide

/-- C2: the maximum file size equals the largest `u32` value `0xffffffff`,
and this cap is strictly below the byte capacity of the double-indirect
pointer scheme, `1049612 * 4096 = 4299210752` bytes, so the 32-bit size
field is the binding limit. -/
theorem max_file_size_cap :
    MAX_FILE_SIZE = 0xffffffff ∧
    MAX_FILE_SIZE = 2 ^ 32 - 1 ∧
    MAX_NBLOCK_DOUBLE_INDIRECT * BLKSIZE = 4299210752 ∧
    MAX_FILE_SIZE < MAX_NBLOCK_DOUBLE_INDIRECT * BLKSIZE ∧
    min MAX_FILE_SIZE (MAX_NBLOCK_DOUBLE_INDIRECT * BLKSIZE) = MAX_FILE_SIZE := by
  decide

/-- C3: `SuperBlock.check` holds exactly when the magic field equals the
constant `MAGIC = 0x2f8dbe2c`, and any two superblocks with the same magic
field check identically: no other field affects the result. -/
theorem superblock_check_spec (sb sb2 : SuperBlock) (h : sb.magic = sb2.magic) :
    (sb.check = true ↔ sb.magic = MAGIC) ∧ sb.check = sb2.check := by
  constructor
  · simp [SuperBlock.check]
  · simp [SuperBlock.check, h]

/-- Witness for C3 at two concrete superblocks sharing only the magic
field. -/
theorem superblock_check_spec_witness :
    ((SuperBlock.mk 0x2f8dbe2c 7 3 [1, 2] 4 5 6).check = true ↔
      (SuperBlock.mk 0x2f8dbe2c 7 3 [1, 2] 4 5 6).magic = MAGIC) ∧
    (SuperBlock.mk 0x2f8dbe2c 7 3 [1, 2] 4 5 6).check =
      (SuperBlock.mk 0x2f8dbe2c 9 9 [] 9 9 9).check :=
  superblock_check_spec (SuperBlock.mk 0x2f8dbe2c 7 3 [1, 2] 4 5 6)
    (SuperBlock.mk 0x2f8dbe2c 9 9 [] 9 9 9) rfl

/-- C4: the sentinel for an indirect / double-indirect pointer block is
`ENTRY_SPECIALBLOCK = -1`, the sentinel for a superseded block is
`ENTRY_GARBAGE = -2`; they differ from each other and, the summary fields
being signed, from the fields of every summary entry whose inode id and
entry id are non-negative. -/
theorem summary_sentinels (e : SummaryEntry)
    (h0 : 0 ≤ e.inode_id) (h1 : 0 ≤ e.entry_id) :
    ENTRY_SPECIALBLOCK = -1 ∧
    ENTRY_GARBAGE = -2 ∧
    ENTRY_SPECIALBLOCK ≠ ENTRY_GARBAGE ∧
    e.entry_id ≠ ENTRY_SPECIALBLOCK ∧
    e.entry_id ≠ ENTRY_GARBAGE ∧
    e.inode_id ≠ ENTRY_SPECIALBLOCK ∧
    e.inode_id ≠ ENTRY_GARBAGE := by
  refine ⟨rfl, rfl, by decide, ?_, ?_, ?_, ?_⟩ <;>
    (simp only [ENTRY_SPECIALBLOCK, ENTRY_GARBAGE]; omega)

/-- Witness for C4 at a concrete summary entry. -/
theorem summary_sentinels_witness :
    ENTRY_SPECIALBLOCK = -1 ∧
    ENTRY_GARBAGE = -2 ∧
    ENTRY_SPECIALBLOCK ≠ ENTRY_GARBAGE ∧
    (SummaryEntry.mk 3 7).entry_id ≠ ENTRY_SPECIALBLOCK ∧
    (SummaryEntry.mk 3 7).entry_id ≠ ENTRY_GARBAGE ∧
    (SummaryEntry.mk 3 7).inode_id ≠ ENTRY_SPECIALBLOCK ∧
    (SummaryEntry.mk 3 7).inode_id ≠ ENTRY_GARBAGE :=
  summary_sentinels (SummaryEntry.mk 3 7) (by decide) (by decide)

/-- C5: the per-segment inode map occupies 2 blocks, the summary 2 blocks
and the metadata 1 block, so the data region begins at in-segment block
index `BLK_DATA_BEGIN = 5` and the last block of the 1024-block segment
has index 1023. -/
theorem segment_data_begin :
    IMAP_PER_SEGMENT_SIZE = 2 * BLKSIZE ∧
    SS_PER_SEGMENT_SIZE = 2 * BLKSIZE ∧
    SEGMENT_META_SIZE = 1 * BLKSIZE ∧
    BLK_DATA_BEGIN =
      (IMAP_PER_SEGMENT_SIZE + SS_PER_SEGMENT_SIZE + SEGMENT_META_SIZE) / BLKSIZE ∧
    BLK_DATA_BEGIN = 5 ∧
    SEGMENT_BLKS = 1024 ∧
    SEGMENT_BLKS - 1 = 1023 := by
  decide

/-- C6: the block size is `4096 = 2^12` bytes, a segment is 1024 blocks
(4 MiB), the superblock lives at block 0, the checkpoint region at block 1
and segment data begins at block `0x100 = 256`. -/
theorem fixed_layout_constants :
    BLKSIZE = 4096 ∧
    BLKSIZE = 2 ^ 12 ∧
    SEGMENT_BLKS = 1024 ∧
    SEGMENT_SIZE = 4 * 1024 * 1024 ∧
    BLKN_SUPER = 0 ∧
    BLKN_CR = 1 ∧
    BLKN_SEGMENT = 0x100 ∧
    BLKN_SEGMENT = 256 := by
  decide

/-- C7: a directory entry is a 4-byte inode id followed by a 256-byte name
field, 255 usable name bytes (`MAX_FNAME_LEN`) plus a terminator, 260 bytes
in total, which fits within one 4096-byte block. -/
theorem disk_entry_size :
    SIZEOF_DISK_ENTRY = SIZEOF_U32 + SIZEOF_STR256 ∧
    SIZEOF_U32 = 4 ∧
    SIZEOF_STR256 = MAX_FNAME_LEN + 1 ∧
    MAX_FNAME_LEN = 255 ∧
    SIZEOF_DISK_ENTRY = 260 ∧
    SIZEOF_DISK_ENTRY ≤ BLKSIZE := by
  decide

/-- C8: for byte strings of length at most 255 (resp. 31) holding no zero
byte, converting into the fixed-length field and reading back is the
identity: `From` zero-pads and `as_ref` truncates at the first zero byte. -/
theorem str_roundtrip (s t : List Nat)
    (hs : s.length ≤ 255) (hsnz : (0 : Nat) ∉ s)
    (ht : t.length ≤ 31) (htnz : (0 : Nat) ∉ t) :
    (str256_from s).bind str_asRef = some s ∧
    (str32_from t).bind str_asRef = some t := by
  constructor
  · have hle : s.length ≤ 256 := le_trans hs (by norm_num)
    have hk : 0 < 256 - s.length := by omega
    have h1 : firstZeroIdx (s ++ List.replicate (256 - s.length) 0) = some s.length :=
      firstZeroIdx_append_replicate s _ hk hsnz
    rw [str256_from, if_pos hle, Option.some_bind, str_asRef, h1, Option.map_some']
    exact congrArg some (List.take_left s _)
  · have hle : t.length ≤ 32 := le_trans ht (by norm_num)
    have hk : 0 < 32 - t.length := by omega
    have h1 : firstZeroIdx (t ++ List.replicate (32 - t.length) 0) = some t.length :=
      firstZeroIdx_append_replicate t _ hk htnz
    rw [str32_from, if_pos hle, Option.some_bind, str_asRef, h1, Option.map_some']
    exact congrArg some (List.take_left t _)

/-- Witness for C8 at the concrete two-byte strings `[104, 105]`. -/
theorem str_roundtrip_witness :
    (str256_from [104, 105]).bind str_asRef = some [104, 105] ∧
    (str32_from [104, 105]).bind str_asRef = some [104, 105] :=
  str_roundtrip [104, 105] [104, 105] (by decide) (by decide) (by decide) (by decide)

/-- C9: the fixed-length string operations are partial: `From` panics
(`none`) on every input longer than the buffer; `as_ref` panics (`none`) on
every buffer without a zero byte, which `From` itself produces on a
zero-free input filling the buffer exactly; and for inputs of length at
most 255 (resp. 31) both operations succeed, so no panic branch is
reachable. -/
theorem str_panic_safety :
    (∀ s : List Nat, 256 < s.length → str256_from s = none) ∧
    (∀ s : List Nat, 32 < s.length → str32_from s = none) ∧
    (∀ buf : List Nat, (0 : Nat) ∉ buf → str_asRef buf = none) ∧
    (∀ s : List Nat, s.length = 256 → (0 : Nat) ∉ s →
      (str256_from s).bind str_asRef = none) ∧
    (∀ s : List Nat, s.length = 32 → (0 : Nat) ∉ s →
      (str32_from s).bind str_asRef = none) ∧
    (∀ s : List Nat, s.length ≤ 255 →
      (str256_from s).isSome ∧ ((str256_from s).bind str_asRef).isSome) ∧
    (∀ s : List Nat, s.length ≤ 31 →
      (str32_from s).isSome ∧ ((str32_from s).bind str_asRef).isSome) := by
  refine ⟨?_, ?_, ?_, ?_, ?_, ?_, ?_⟩
  · intro s h
    simp [str256_from, Nat.not_le.mpr h]
  · intro s h
    simp [str32_from, Nat.not_le.mpr h]
  · intro buf h
    simp [str_asRef, firstZeroIdx_eq_none buf h]
  · intro s hlen hnz
    have : str256_from s = some s := by
      simp [str256_from, hlen]
    simp [this, str_asRef, firstZeroIdx_eq_none s hnz]
  · intro s hlen hnz
    have : str32_from s = some s := by
      simp [str32_from, hlen]
    simp [this, str_asRef, firstZeroIdx_eq_none s hnz]
  · intro s h
    have hle : s.length ≤ 256 := le_trans h (by norm_num)
    have hk : 0 < 256 - s.length := by omega
    constructor
    · simp [str256_from, hle]
    · have h1 := firstZeroIdx_append_replicate_isSome s _ hk
      obtain ⟨a, ha⟩ := Option.isSome_iff_exists.mp h1
      rw [str256_from, if_pos hle, Option.some_bind, str_asRef, ha, Option.map_some']
      rfl
  · intro s h
    have hle : s.length ≤ 32 := le_trans h (by norm_num)
    have hk : 0 < 32 - s.length := by omega
    constructor
    · simp [str32_from, hle]
    · have h1 := firstZeroIdx_append_replicate_isSome s _ hk
      obtain ⟨a, ha⟩ := Option.isSome_iff_exists.mp h1
      rw [str32_from, if_pos hle, Option.some_bind, str_asRef, ha, Option.map_some']
      rfl

/-- C10: every `DiskINode` constructor returns size 0, 0 links, 0 blocks,
twelve zero direct pointers, zero indirect and double-indirect pointers,
with the type matching the constructor; the "not a device" sentinel
`NODEVICE` is 100, an ordinary device id, so `new_chardevice 100` carries
the very same `device_inode_id` as a fresh non-device inode. -/
theorem disk_inode_constructors :
    (DiskINode.new_file.size = 0 ∧ DiskINode.new_file.nlinks = 0 ∧
      DiskINode.new_file.blocks = 0 ∧
      DiskINode.new_file.direct = List.replicate 12 0 ∧
      DiskINode.new_file.indirect = 0 ∧ DiskINode.new_file.db_indirect = 0 ∧
      DiskINode.new_file.type_ = FileType.File ∧
      DiskINode.new_file.device_inode_id = NODEVICE) ∧
    (DiskINode.new_symlink.size = 0 ∧ DiskINode.new_symlink.nlinks = 0 ∧
      DiskINode.new_symlink.blocks = 0 ∧
      DiskINode.new_symlink.direct = List.replicate 12 0 ∧
      DiskINode.new_symlink.indirect = 0 ∧ DiskINode.new_symlink.db_indirect = 0 ∧
      DiskINode.new_symlink.type_ = FileType.SymLink ∧
      DiskINode.new_symlink.device_inode_id = NODEVICE) ∧
    (DiskINode.new_dir.size = 0 ∧ DiskINode.new_dir.nlinks = 0 ∧
      DiskINode.new_dir.blocks = 0 ∧
      DiskINode.new_dir.direct = List.replicate 12 0 ∧
      DiskINode.new_dir.indirect = 0 ∧ DiskINode.new_dir.db_indirect = 0 ∧
      DiskINode.new_dir.type_ = FileType.Dir ∧
      DiskINode.new_dir.device_inode_id = NODEVICE) ∧
    (∀ d : Nat, (DiskINode.new_chardevice d).size = 0 ∧
      (DiskINode.new_chardevice d).nlinks = 0 ∧
      (DiskINode.new_chardevice d).blocks = 0 ∧
      (DiskINode.new_chardevice d).direct = List.replicate 12 0 ∧
      (DiskINode.new_chardevice d).indirect = 0 ∧
      (DiskINode.new_chardevice d).db_indirect = 0 ∧
      (DiskINode.new_chardevice d).type_ = FileType.CharDevice ∧
      (DiskINode.new_chardevice d).device_inode_id = d) ∧
    NODEVICE = 100 ∧
    (DiskINode.new_chardevice 100).device_inode_id =
      DiskINode.new_file.device_inode_id := by
  refine ⟨?_, ?_, ?_, ?_, rfl, rfl⟩
  · exact ⟨rfl, rfl, rfl, rfl, rfl, rfl, rfl, rfl⟩
  · exact ⟨rfl, rfl, rfl, rfl, rfl, rfl, rfl, rfl⟩
  · exact ⟨rfl, rfl, rfl, rfl, rfl, rfl, rfl, rfl⟩
  · intro d
    exact ⟨rfl, rfl, rfl, rfl, rfl, rfl, rfl, rfl⟩

end LFS
